import Mathlib

/-!
Verification development for the vouch-ledger bot (src/voucher1.2.py).

The SQLite table `vouches` is modelled as a list of records in insertion
order (`Store`); AUTOINCREMENT ids are carried in the records.  SQL queries
scoped by `guild_id = ? AND vouched_user_id = ?` become list filters,
`ORDER BY id DESC` becomes a sort by descending id, `LIMIT ? OFFSET ?`
becomes take/drop, and the aggregate queries (COUNT, AVG, SUM) become
length, rational mean and a filtered count.  Timestamps (`created_at`,
stored as a UTC string and compared chronologically through SQLite's
datetime) are modelled as integer seconds; the 7- and 14-day windows of
`detect_suspicious_vouch` become explicit second counts.  SQLite AVG and
the float comparisons of the trust gate are modelled over ℚ.
-/

namespace Voucher

/-- Configuration constant: vouches per page (source line 67). -/
def PAGE_SIZE : Nat := 5

/-- Trust-gate threshold `TRUSTED_MIN_VOUCHES = 25` (source line 84). -/
def TRUSTED_MIN_VOUCHES : Nat := 25

/-- Trust-gate threshold `TRUSTED_MIN_AVG = 4.7` (source line 85). -/
def TRUSTED_MIN_AVG : ℚ := 47 / 10

/-- Trust-gate threshold `RESTRICTED_MIN_VOUCHES = 5` (source line 86). -/
def RESTRICTED_MIN_VOUCHES : Nat := 5

/-- Trust-gate threshold `RESTRICTED_MAX_AVG = 2.5` (source line 87). -/
def RESTRICTED_MAX_AVG : ℚ := 5 / 2

/-- Minimum account age in days to submit a vouch (source line 70). -/
def MIN_ACCOUNT_AGE_DAYS : Int := 7

/-- Minimum server membership in hours to submit a vouch (source line 71);
the code compares fractional hours, so the threshold lives in ℚ. -/
def MIN_SERVER_JOIN_HOURS : ℚ := 6

/-- One row of the `vouches` table (schema at source lines 104-117).
`created_at TEXT` holds a second-precision UTC timestamp compared
chronologically; it is modelled as seconds.  `suspicious INTEGER` only ever
holds 0 or 1 and is modelled as Bool. -/
structure VouchRecord where
  id : Nat
  guildId : Int
  vouchedUserId : Int
  voucherUserId : Int
  traderUserId : Int
  middlemanUserId : Option Int
  rating : Int
  tradedItem : String
  createdAt : Int
  suspicious : Bool
deriving DecidableEq, Repr

/-- The `vouches` table in rowid (insertion) order. -/
abbrev Store := List VouchRecord

/-- Rows matching `WHERE guild_id = ? AND vouched_user_id = ?`, the scope of
every per-user query in the source. -/
def scopedTo (store : Store) (guild_id user_id : Int) : Store :=
  store.filter fun r => r.guildId == guild_id && r.vouchedUserId == user_id

/-- Order used by `ORDER BY id DESC`: newest (largest id) first. -/
def idDescRel (a b : VouchRecord) : Prop := b.id ≤ a.id

instance : DecidableRel idDescRel := fun a b => Nat.decLe b.id a.id

instance : IsTotal VouchRecord idDescRel := ⟨fun a b => Nat.le_total b.id a.id⟩

instance : IsTrans VouchRecord idDescRel := ⟨fun _ _ _ h1 h2 => Nat.le_trans h2 h1⟩

/-- `ORDER BY id DESC` applied to a row set. -/
def byIdDesc (l : Store) : Store := l.insertionSort idDescRel

/-- `fetch_vouches_page` (source lines 125-145): the count of the scoped set
together with the slice `ORDER BY id DESC LIMIT PAGE_SIZE OFFSET page*PAGE_SIZE`;
`page` is 0-based.  Returns (rows, total). -/
def fetch_vouches_page (store : Store) (guild_id vouched_user_id : Int) (page : Nat) :
    Store × Nat :=
  (((byIdDesc (scopedTo store guild_id vouched_user_id)).drop (page * PAGE_SIZE)).take PAGE_SIZE,
   (scopedTo store guild_id vouched_user_id).length)

/-- `total_pages = max(1, ceil(total / PAGE_SIZE))`, as computed with integer
arithmetic at source line 258. -/
def total_pages (total : Nat) : Nat := max 1 ((total + PAGE_SIZE - 1) / PAGE_SIZE)

/-- Concatenation of every page (0 .. total_pages - 1) for one (guild, user)
pair, the "list all pages" read used by the paginator. -/
def fetch_all_pages (store : Store) (guild_id user_id : Int) : Store :=
  ((List.range (total_pages (fetch_vouches_page store guild_id user_id 0).2)).map
    fun p => (fetch_vouches_page store guild_id user_id p).1).flatten

/-- SUM(rating) over a row set. -/
def ratingSum (l : Store) : Int := (l.map fun r => r.rating).sum

/-- AVG(rating) over a row set: SQLite AVG is NULL on an empty set and the
rational mean otherwise (the code keeps None / float accordingly,
source line 167). -/
def avgRating (l : Store) : Option ℚ :=
  if l.length = 0 then none else some ((ratingSum l : ℚ) / (l.length : ℚ))

/-- The dict returned by `get_user_trust_stats` (source lines 148-171). -/
structure TrustStats where
  total : Nat
  avg : Option ℚ
  suspicious : Nat
  middleman_count : Nat
  middleman_avg : Option ℚ
deriving DecidableEq, Repr

/-- Rows of the scope with `middleman_user_id IS NOT NULL` (source line 161). -/
def mmScoped (store : Store) (guild_id user_id : Int) : Store :=
  (scopedTo store guild_id user_id).filter fun r => r.middlemanUserId.isSome

/-- `get_user_trust_stats` (source lines 148-171): COUNT(*), AVG(rating) and
SUM(suspicious) over the scoped rows, plus the same for the middleman subset.
SUM over the 0/1 `suspicious` column is the count of flagged rows. -/
def get_user_trust_stats (store : Store) (guild_id user_id : Int) : TrustStats :=
  { total := (scopedTo store guild_id user_id).length
  , avg := avgRating (scopedTo store guild_id user_id)
  , suspicious := ((scopedTo store guild_id user_id).filter fun r => r.suspicious).length
  , middleman_count := (mmScoped store guild_id user_id).length
  , middleman_avg := avgRating (mmScoped store guild_id user_id) }

/-- Seven days in seconds, the repeat-vouch window (source line 187). -/
def SEVEN_DAYS : Int := 7 * 86400

/-- Fourteen days in seconds, the mutual-loop window (source line 198). -/
def FOURTEEN_DAYS : Int := 14 * 86400

/-- First query of `detect_suspicious_vouch` (source lines 183-189): rows of
this guild where the same voucher already vouched the same target within the
trailing 7 days. -/
def repeat_vouch_count (store : Store) (now guild_id vouched_user_id voucher_user_id : Int) :
    Nat :=
  (store.filter fun r =>
    r.guildId == guild_id && r.vouchedUserId == vouched_user_id &&
      r.voucherUserId == voucher_user_id && decide (now - SEVEN_DAYS ≤ r.createdAt)).length

/-- Second query of `detect_suspicious_vouch` (source lines 192-200): rows of
this guild with the roles reversed (the current target previously vouched the
current voucher) within the trailing 14 days. -/
def mutual_vouch_count (store : Store) (now guild_id vouched_user_id voucher_user_id : Int) :
    Nat :=
  (store.filter fun r =>
    r.guildId == guild_id && r.vouchedUserId == voucher_user_id &&
      r.voucherUserId == vouched_user_id && decide (now - FOURTEEN_DAYS ≤ r.createdAt)).length

/-- `detect_suspicious_vouch` (source lines 174-206): either heuristic firing
makes the candidate suspicious.  It runs against the store as it exists before
the candidate is inserted. -/
def detect_suspicious_vouch (store : Store) (now guild_id vouched_user_id voucher_user_id : Int) :
    Bool :=
  if 1 ≤ repeat_vouch_count store now guild_id vouched_user_id voucher_user_id then true
  else if 1 ≤ mutual_vouch_count store now guild_id vouched_user_id voucher_user_id then true
  else false

/-- `should_trust = total >= TRUSTED_MIN_VOUCHES and avg >= TRUSTED_MIN_AVG`
(source line 236). -/
def should_trust (total : Nat) (avg : ℚ) : Bool :=
  decide (TRUSTED_MIN_VOUCHES ≤ total) && decide (TRUSTED_MIN_AVG ≤ avg)

/-- `should_restrict = total >= RESTRICTED_MIN_VOUCHES and avg <= RESTRICTED_MAX_AVG`
(source line 237). -/
def should_restrict (total : Nat) (avg : ℚ) : Bool :=
  decide (RESTRICTED_MIN_VOUCHES ≤ total) && decide (avg ≤ RESTRICTED_MAX_AVG)

/-- A role-transition intent the gate emits for one role. -/
inductive RoleAction where
  | grant
  | revoke
  | noop
deriving DecidableEq, Repr

/-- Current role membership of the member (`role in member.roles`). -/
structure RoleState where
  hasTrusted : Bool
  hasRestricted : Bool
deriving DecidableEq, Repr

/-- The gate's intents for the two roles. -/
structure GateResult where
  restrictedAction : RoleAction
  trustedAction : RoleAction
deriving DecidableEq, Repr

/-- The no-transition result. -/
def noOps : GateResult := ⟨RoleAction.noop, RoleAction.noop⟩

/-- One role's transition (source lines 240-250): add when the condition
holds and the role is absent, remove when it no longer holds and the role is
present, otherwise nothing. -/
def roleTransition (should has : Bool) : RoleAction :=
  if should && !has then RoleAction.grant
  else if !should && has then RoleAction.revoke
  else RoleAction.noop

/-- Decision core of `apply_trust_gate` (source lines 229-250): with no
rating average (zero vouches) it returns early with no transition in either
direction; otherwise each role is decided independently from the thresholds. -/
def gate_decide (stats : TrustStats) (rs : RoleState) : GateResult :=
  match stats.avg with
  | none => noOps
  | some avg =>
    { restrictedAction := roleTransition (should_restrict stats.total avg) rs.hasRestricted
    , trustedAction := roleTransition (should_trust stats.total avg) rs.hasTrusted }

/-- `apply_trust_gate` (source lines 209-254) as a pure decision: it reads the
stats fresh from the store and decides both roles.  The platform-capability
guards (role ids configured, manage_roles permission, hierarchy) and the
grant/revoke side effects belong to the external role manager. -/
def apply_trust_gate (store : Store) (guild_id user_id : Int) (rs : RoleState) : GateResult :=
  gate_decide (get_user_trust_stats store guild_id user_id) rs

/-- Effect of one emitted intent on role membership (`add_roles` and
`remove_roles` at source lines 242-250). -/
def applyAction (a : RoleAction) (has : Bool) : Bool :=
  match a with
  | RoleAction.grant => true
  | RoleAction.revoke => false
  | RoleAction.noop => has

/-- Role membership after the platform applies both intents of one gate run. -/
def applyGateResult (res : GateResult) (rs : RoleState) : RoleState :=
  { hasTrusted := applyAction res.trustedAction rs.hasTrusted
  , hasRestricted := applyAction res.restrictedAction rs.hasRestricted }

/-- Digit value of a character, for the rating parse. -/
def digit_val (c : Char) : Option Nat :=
  if '0' ≤ c ∧ c ≤ '9' then some (c.toNat - '0'.toNat) else none

/-- Decimal digits to a number; none when empty or a non-digit appears. -/
def parse_digits (cs : List Char) : Option Nat :=
  match cs with
  | [] => none
  | _ =>
    cs.foldl
      (fun acc c =>
        match acc, digit_val c with
        | some n, some d => some (10 * n + d)
        | _, _ => none)
      (some 0)

/-- Python `int(...)` as applied to the modal's rating text (source line 472):
an optional sign followed by decimal digits, otherwise a ValueError (none).
The rating input is one character at most (max_length=1, source line 459), so
the exotic forms int() also accepts (surrounding whitespace, underscores,
non-ASCII digits) cannot occur and are not modelled. -/
def parse_rating (s : String) : Option Int :=
  match s.data with
  | [] => none
  | '-' :: cs => (parse_digits cs).map fun n => -(n : Int)
  | '+' :: cs => (parse_digits cs).map fun n => (n : Int)
  | cs => (parse_digits cs).map fun n => (n : Int)

/-- Why a modal submission was rejected before the insert. -/
inductive SubmitError where
  | missingRequiredField
  | invalidRating
  | notInGuild
  | accountTooYoung
  | joinedTooRecently
deriving DecidableEq, Repr

/-- The ambient data `VouchModal.on_submit` reads from the interaction and the
selection steps: guild (none outside a server), the submitting user, account
age and membership duration (none when the platform reports none), trader,
optional middleman, vouch target, the time, and the id the insert will assign. -/
structure SubmitContext where
  guildId : Option Int
  userId : Int
  accountAgeDays : Option Int
  serverJoinHours : Option ℚ
  traderUserId : Int
  middlemanUserId : Option Int
  vouchedUserId : Int
  now : Int
  nextId : Nat
deriving Repr

/-- Account-age check of source lines 491-498: only performed when the
platform reports a creation time (truthiness of `created_at`). -/
def account_too_young (ctx : SubmitContext) : Bool :=
  match ctx.accountAgeDays with
  | some d => decide (d < MIN_ACCOUNT_AGE_DAYS)
  | none => false

/-- Join-duration check of source lines 500-507, in fractional hours. -/
def joined_too_recently (ctx : SubmitContext) : Bool :=
  match ctx.serverJoinHours with
  | some h => decide (h < MIN_SERVER_JOIN_HOURS)
  | none => false

/-- The row the INSERT at source lines 532-550 writes. -/
def new_vouch_record (ctx : SubmitContext) (g stars : Int) (item : String) (susp : Bool) :
    VouchRecord :=
  { id := ctx.nextId
  , guildId := g
  , vouchedUserId := ctx.vouchedUserId
  , voucherUserId := ctx.userId
  , traderUserId := ctx.traderUserId
  , middlemanUserId := ctx.middlemanUserId
  , rating := stars
  , tradedItem := item
  , createdAt := ctx.now
  , suspicious := susp }

namespace VouchModal

/-- `VouchModal.on_submit` (source lines 469-576) together with the modal
field declarations (lines 456-467): both text inputs carry required=True, so
the platform refuses the submission with an empty value before on_submit
runs; then the code validates the rating (int in 1..5), the server context
and the account-age and join-duration requirements, computes the suspicious
flag against the pre-insert store, and inserts the record.  Returns the store
after the call and the outcome. -/
def on_submit (ctx : SubmitContext) (ratingText itemText : String) (store : Store) :
    Store × Except SubmitError VouchRecord :=
  if ratingText = "" ∨ itemText = "" then (store, Except.error SubmitError.missingRequiredField)
  else
    match parse_rating ratingText with
    | none => (store, Except.error SubmitError.invalidRating)
    | some stars =>
      if stars < 1 ∨ 5 < stars then (store, Except.error SubmitError.invalidRating)
      else
        match ctx.guildId with
        | none => (store, Except.error SubmitError.notInGuild)
        | some g =>
          if account_too_young ctx then (store, Except.error SubmitError.accountTooYoung)
          else if joined_too_recently ctx then (store, Except.error SubmitError.joinedTooRecently)
          else
            (store ++ [new_vouch_record ctx g stars itemText
                (detect_suspicious_vouch store ctx.now g ctx.vouchedUserId ctx.userId)],
             Except.ok (new_vouch_record ctx g stars itemText
                (detect_suspicious_vouch store ctx.now g ctx.vouchedUserId ctx.userId)))

end VouchModal

/-- The warning emoji appended to a displayed rating (source line 94). -/
def warnEmoji : String := "⚠"

/-- The flag text a rendered vouch carries next to its stars: present exactly
when the record is suspicious (source lines 276 and 519). -/
def rating_field_flag (suspicious : Bool) : String :=
  if suspicious then " " ++ warnEmoji else ""

/-- Rewrite every record's suspicious flag (and nothing else); used to state
that aggregates ignore the flag. -/
def set_flags (f : VouchRecord → Bool) (store : Store) : Store :=
  store.map fun r => { r with suspicious := f r }

/-- A concrete record for witnesses: record number i for user 2 in guild 1. -/
def demoRecord (i : Nat) : VouchRecord :=
  { id := i
  , guildId := 1
  , vouchedUserId := 2
  , voucherUserId := 100 + (i : Int)
  , traderUserId := 3
  , middlemanUserId := none
  , rating := 5
  , tradedItem := "x"
  , createdAt := 86400 * (i : Int)
  , suspicious := false }

/-- Twelve records for one (guild, user) pair, the pagination scenario. -/
def demoStore12 : Store := (List.range 12).map demoRecord

/-- A record by user 5 for user 6 in guild 1 at time 0, for the mutual-loop
witness. -/
def mutualDemo : VouchRecord :=
  { id := 0
  , guildId := 1
  , vouchedUserId := 6
  , voucherUserId := 5
  , traderUserId := 3
  , middlemanUserId := none
  , rating := 5
  , tradedItem := "x"
  , createdAt := 0
  , suspicious := false }

/-- A submission context inside guild 1 with no platform timestamps, for the
submission witnesses. -/
def demoCtx : SubmitContext :=
  { guildId := some 1
  , userId := 10
  , accountAgeDays := none
  , serverJoinHours := none
  , traderUserId := 11
  , middlemanUserId := none
  , vouchedUserId := 12
  , now := 0
  , nextId := 1 }

lemma filter_length_pos {α : Type _} {p : α → Bool} {l : List α} :
    0 < (l.filter p).length ↔ ∃ a ∈ l, p a = true := by
  rw [← List.countP_eq_length_filter]
  exact List.countP_pos_iff

lemma byIdDesc_perm (l : Store) : (byIdDesc l).Perm l :=
  List.perm_insertionSort _ _

lemma byIdDesc_length (l : Store) : (byIdDesc l).length = l.length :=
  (byIdDesc_perm l).length_eq

lemma join_chunks {α : Type _} (k : Nat) (n : Nat) (l : List α) :
    ((List.range n).map fun p => ((l.drop (p * k)).take k)).flatten = l.take (n * k) := by
  induction n with
  | zero => simp
  | succ m ih =>
    rw [List.range_succ, List.map_append, List.flatten_append, ih]
    simp only [List.map_cons, List.map_nil, List.flatten_cons, List.flatten_nil,
      List.append_nil]
    rw [Nat.succ_mul, List.take_add]

lemma total_le_total_pages_mul (t : Nat) : t ≤ total_pages t * PAGE_SIZE := by
  unfold total_pages PAGE_SIZE
  omega

lemma fetch_all_pages_eq (store : Store) (g u : Int) :
    fetch_all_pages store g u = byIdDesc (scopedTo store g u) := by
  simp only [fetch_all_pages, fetch_vouches_page]
  rw [join_chunks]
  exact List.take_of_length_le (by rw [byIdDesc_length]; exact total_le_total_pages_mul _)

lemma roleTransition_apply (s h : Bool) :
    roleTransition s (applyAction (roleTransition s h) h) = RoleAction.noop := by
  cases s <;> cases h <;> rfl

lemma gate_decide_congr {s1 s2 : TrustStats} (ht : s1.total = s2.total)
    (ha : s1.avg = s2.avg) (rs : RoleState) : gate_decide s1 rs = gate_decide s2 rs := by
  unfold gate_decide
  rw [ht, ha]

lemma scopedTo_set_flags (f : VouchRecord → Bool) (store : Store) (g u : Int) :
    scopedTo (set_flags f store) g u
      = (scopedTo store g u).map fun r => { r with suspicious := f r } := by
  unfold scopedTo set_flags
  rw [List.filter_map]
  rfl

/-- Claim C1: for a (guild, user) pair with a defined average the engine
computes shouldTrust exactly when total >= trustedMinVouches and
avg >= trustedMinAvg, and shouldRestrict exactly when
total >= restrictedMinVouches and avg <= restrictedMaxAvg; exactly
trustedMinVouches vouches at exactly trustedMinAvg satisfies shouldTrust,
one fewer vouch or a lower average does not; and with an undefined average
(zero vouches) the gate computes no transition in either direction. -/
theorem trust_gate_thresholds :
    (∀ (total : Nat) (avg : ℚ),
      should_trust total avg = true ↔ (TRUSTED_MIN_VOUCHES ≤ total ∧ TRUSTED_MIN_AVG ≤ avg))
    ∧ (∀ (total : Nat) (avg : ℚ),
      should_restrict total avg = true
        ↔ (RESTRICTED_MIN_VOUCHES ≤ total ∧ avg ≤ RESTRICTED_MAX_AVG))
    ∧ should_trust TRUSTED_MIN_VOUCHES TRUSTED_MIN_AVG = true
    ∧ (∀ avg : ℚ, should_trust (TRUSTED_MIN_VOUCHES - 1) avg = false)
    ∧ (∀ (total : Nat) (avg : ℚ), avg < TRUSTED_MIN_AVG → should_trust total avg = false)
    ∧ (∀ (store : Store) (g u : Int) (rs : RoleState),
        (get_user_trust_stats store g u).avg = none → apply_trust_gate store g u rs = noOps) := by
  refine ⟨?_, ?_, ?_, ?_, ?_, ?_⟩
  · intro total avg
    simp [should_trust]
  · intro total avg
    simp [should_restrict]
  · simp [should_trust]
  · intro avg
    simp [should_trust, TRUSTED_MIN_VOUCHES]
  · intro total avg h
    simp [should_trust, not_le.mpr h]
  · intro store g u rs h
    simp [apply_trust_gate, gate_decide, h]

/-- Claim C9: running the gate again for the same pair, with the stats
unchanged and the membership as left by applying the first run's intents,
yields no grant and no revoke for either role. -/
theorem trust_gate_idempotent :
    ∀ (store : Store) (g u : Int) (rs : RoleState),
      apply_trust_gate store g u (applyGateResult (apply_trust_gate store g u rs) rs)
        = noOps := by
  intro store g u rs
  unfold apply_trust_gate gate_decide
  rcases h : (get_user_trust_stats store g u).avg with _ | a
  · rfl
  · simp only [applyGateResult, applyAction]
    exact congrArg₂ GateResult.mk (roleTransition_apply _ _) (roleTransition_apply _ _)

/-- Claim C10: flagged records participate fully in every aggregate: changing
suspicious flags (and nothing else) changes neither total nor avgRating nor
any trust-gate decision; the flag only feeds suspiciousCount, which counts
the flagged records of the scope. -/
theorem suspicious_flag_is_data_only :
    ∀ (f : VouchRecord → Bool) (store : Store) (g u : Int) (rs : RoleState),
      (get_user_trust_stats (set_flags f store) g u).total
          = (get_user_trust_stats store g u).total
      ∧ (get_user_trust_stats (set_flags f store) g u).avg
          = (get_user_trust_stats store g u).avg
      ∧ apply_trust_gate (set_flags f store) g u rs = apply_trust_gate store g u rs
      ∧ (get_user_trust_stats store g u).suspicious
          = ((scopedTo store g u).filter fun r => r.suspicious).length := by
  intro f store g u rs
  have hs := scopedTo_set_flags f store g u
  have htot : (get_user_trust_stats (set_flags f store) g u).total
      = (get_user_trust_stats store g u).total := by
    simp [get_user_trust_stats, hs]
  have havg : (get_user_trust_stats (set_flags f store) g u).avg
      = (get_user_trust_stats store g u).avg := by
    simp only [get_user_trust_stats, hs, avgRating, ratingSum, List.length_map, List.map_map]
    rfl
  exact ⟨htot, havg, gate_decide_congr htot havg rs, rfl⟩

/-- Claim C2: a candidate vouch is flagged when the same voucher already has
a vouch for the same target in this guild within the trailing 7 days; and
when every such same-direction record is older than 7 days the repeat-vouch
query counts nothing, so the verdict then rests on the mutual-loop rule
alone. -/
theorem repeat_vouch_detection :
    (∀ (store : Store) (now g t v : Int),
      (∃ r ∈ store, r.guildId = g ∧ r.vouchedUserId = t ∧ r.voucherUserId = v
          ∧ now - SEVEN_DAYS ≤ r.createdAt) →
      detect_suspicious_vouch store now g t v = true)
    ∧ (∀ (store : Store) (now g t v : Int),
      (∀ r ∈ store, r.guildId = g → r.vouchedUserId = t → r.voucherUserId = v →
          r.createdAt < now - SEVEN_DAYS) →
      repeat_vouch_count store now g t v = 0
        ∧ (detect_suspicious_vouch store now g t v = true
            ↔ 1 ≤ mutual_vouch_count store now g t v)) := by
  constructor
  · rintro store now g t v ⟨r, hr, h1, h2, h3, h4⟩
    have hpos : 0 < repeat_vouch_count store now g t v := by
      unfold repeat_vouch_count
      rw [filter_length_pos]
      exact ⟨r, hr, by simp [h1, h2, h3, h4]⟩
    unfold detect_suspicious_vouch
    rw [if_pos (show 1 ≤ repeat_vouch_count store now g t v from hpos)]
  · intro store now g t v h
    have h0 : repeat_vouch_count store now g t v = 0 := by
      unfold repeat_vouch_count
      rw [List.length_eq_zero, List.filter_eq_nil_iff]
      intro r hr hcon
      simp only [Bool.and_eq_true, beq_iff_eq, decide_eq_true_eq] at hcon
      obtain ⟨⟨⟨e1, e2⟩, e3⟩, e4⟩ := hcon
      exact absurd e4 (not_le.mpr (h r hr e1 e2 e3))
    refine ⟨h0, ?_⟩
    unfold detect_suspicious_vouch
    rw [h0]
    by_cases hm : 1 ≤ mutual_vouch_count store now g t v <;> simp [hm]

/-- Claim C3: when a pre-existing record of this guild has the roles reversed
relative to the candidate (its voucher is the candidate's target and its
target is the candidate's voucher) within the trailing 14 days, the candidate
is flagged suspicious. -/
theorem mutual_loop_detection (store : Store) (now g a b : Int)
    (h : ∃ r ∈ store, r.guildId = g ∧ r.vouchedUserId = b ∧ r.voucherUserId = a
        ∧ now - FOURTEEN_DAYS ≤ r.createdAt) :
    detect_suspicious_vouch store now g a b = true := by
  obtain ⟨r, hr, h1, h2, h3, h4⟩ := h
  have hpos : 0 < mutual_vouch_count store now g a b := by
    unfold mutual_vouch_count
    rw [filter_length_pos]
    exact ⟨r, hr, by simp [h1, h2, h3, h4]⟩
  unfold detect_suspicious_vouch
  by_cases hrep : 1 ≤ repeat_vouch_count store now g a b
  · rw [if_pos hrep]
  · rw [if_neg hrep, if_pos (show 1 ≤ mutual_vouch_count store now g a b from hpos)]

/-- Witness for C3: user 5 vouched user 6 at time 0, and user 6 vouching
user 5 at time 0 in the same guild is flagged. -/
theorem mutual_loop_detection_witness :
    detect_suspicious_vouch [mutualDemo] 0 1 5 6 = true :=
  mutual_loop_detection [mutualDemo] 0 1 5 6
    ⟨mutualDemo, by simp, rfl, rfl, rfl, by decide⟩

/-- Claim C5: the trust stats of a (guild, user) pair: total is the number of
scoped records and equals the length of the concatenation of all pages;
avgRating is absent exactly when total is zero and otherwise is the
arithmetic mean of the listed records' ratings; suspiciousCount counts the
scoped records with the flag set. -/
theorem trust_stats_consistency :
    ∀ (store : Store) (g u : Int),
      (get_user_trust_stats store g u).total = (scopedTo store g u).length
      ∧ (get_user_trust_stats store g u).total = (fetch_all_pages store g u).length
      ∧ ((get_user_trust_stats store g u).avg = none
          ↔ (get_user_trust_stats store g u).total = 0)
      ∧ (∀ a : ℚ, (get_user_trust_stats store g u).avg = some a →
          a = (ratingSum (fetch_all_pages store g u) : ℚ)
                / ((fetch_all_pages store g u).length : ℚ))
      ∧ (get_user_trust_stats store g u).suspicious
          = ((scopedTo store g u).filter fun r => r.suspicious).length := by
  intro store g u
  have hper : (fetch_all_pages store g u).Perm (scopedTo store g u) := by
    rw [fetch_all_pages_eq]
    exact byIdDesc_perm _
  have hlen : (fetch_all_pages store g u).length = (scopedTo store g u).length :=
    hper.length_eq
  have hsum : ratingSum (fetch_all_pages store g u) = ratingSum (scopedTo store g u) := by
    unfold ratingSum
    exact List.Perm.sum_eq (hper.map fun r => r.rating)
  refine ⟨rfl, hlen.symm, ?_, ?_, rfl⟩
  · simp only [get_user_trust_stats, avgRating]
    by_cases h : (scopedTo store g u).length = 0 <;> simp [h]
  · intro a ha
    simp only [get_user_trust_stats, avgRating] at ha
    split at ha
    · exact absurd ha (by simp)
    · rw [hsum, hlen]
      exact (Option.some_inj.mp ha).symm

/-- Claim C6: for a (guild, user) pair, concatenating pages 0 through
totalPages - 1 has exactly totalCount records, holds exactly the scoped
records, each exactly once (given the store's ids are unique), in strictly
descending id order, i.e. newest first. -/
theorem pagination_completeness (store : Store) (g u : Int)
    (h : (store.map fun r => r.id).Nodup) :
    (fetch_all_pages store g u).length = (fetch_vouches_page store g u 0).2
    ∧ (∀ r : VouchRecord, r ∈ fetch_all_pages store g u ↔ r ∈ scopedTo store g u)
    ∧ (∀ r ∈ scopedTo store g u, (fetch_all_pages store g u).count r = 1)
    ∧ (fetch_all_pages store g u).Pairwise fun r s => s.id < r.id := by
  have heq : fetch_all_pages store g u = byIdDesc (scopedTo store g u) :=
    fetch_all_pages_eq store g u
  have hper : (byIdDesc (scopedTo store g u)).Perm (scopedTo store g u) :=
    byIdDesc_perm _
  have hids : ((scopedTo store g u).map fun r => r.id).Nodup :=
    List.Nodup.sublist (List.Sublist.map _ (List.filter_sublist _)) h
  have hnd : (scopedTo store g u).Nodup := hids.of_map
  refine ⟨?_, ?_, ?_, ?_⟩
  · rw [heq]
    exact hper.length_eq
  · intro r
    rw [heq]
    exact hper.mem_iff
  · intro r hr
    rw [heq, hper.count_eq]
    exact List.count_eq_one_of_mem hnd hr
  · rw [heq]
    have hsorted : List.Sorted idDescRel (byIdDesc (scopedTo store g u)) :=
      List.sorted_insertionSort _ _
    have hbids : ((byIdDesc (scopedTo store g u)).map fun r => r.id).Nodup := by
      rw [List.Perm.nodup_iff (hper.map _)]
      exact hids
    have hne : (byIdDesc (scopedTo store g u)).Pairwise fun r s => r.id ≠ s.id := by
      rw [List.Nodup, List.pairwise_map] at hbids
      exact hbids
    exact (hsorted.and hne).imp fun hab =>
      Nat.lt_of_le_of_ne hab.1 fun hc => hab.2 hc.symm

/-- Witness for C6: on the twelve-record demo store the concatenation of all
pages is in strictly descending id order. -/
theorem pagination_completeness_witness :
    (fetch_all_pages demoStore12 1 2).Pairwise fun r s => s.id < r.id :=
  (pagination_completeness demoStore12 1 2 (by decide)).2.2.2

/-- Claim C7: a page fetch returns the scoped total together with at most
PAGE_SIZE records, the slice at offset page * PAGE_SIZE of the id-descending
scoped rows; an out-of-range page yields the empty slice with the total
still correct; and on a 12-record store with page size 5 pages 0 and 1 hold
5 records, page 2 holds 2, and page 3 holds 0 with totalCount 12. -/
theorem page_contract :
    (∀ (store : Store) (g u : Int) (p : Nat),
      (fetch_vouches_page store g u p).2 = (scopedTo store g u).length
      ∧ (fetch_vouches_page store g u p).1.length ≤ PAGE_SIZE
      ∧ (fetch_vouches_page store g u p).1
          = ((byIdDesc (scopedTo store g u)).drop (p * PAGE_SIZE)).take PAGE_SIZE
      ∧ (total_pages (fetch_vouches_page store g u p).2 ≤ p →
          (fetch_vouches_page store g u p).1 = []))
    ∧ (fetch_vouches_page demoStore12 1 2 0).1.length = 5
    ∧ (fetch_vouches_page demoStore12 1 2 1).1.length = 5
    ∧ (fetch_vouches_page demoStore12 1 2 2).1.length = 2
    ∧ (fetch_vouches_page demoStore12 1 2 3).1 = []
    ∧ (fetch_vouches_page demoStore12 1 2 3).2 = 12 := by
  refine ⟨?_, by decide, by decide, by decide, by decide, by decide⟩
  intro store g u p
  refine ⟨rfl, List.length_take_le _ _, rfl, ?_⟩
  intro hp
  have hlen : (byIdDesc (scopedTo store g u)).length ≤ p * PAGE_SIZE := by
    rw [byIdDesc_length]
    calc (scopedTo store g u).length
        ≤ total_pages (scopedTo store g u).length * PAGE_SIZE := total_le_total_pages_mul _
      _ ≤ p * PAGE_SIZE := Nat.mul_le_mul_right _ hp
  show (((byIdDesc (scopedTo store g u)).drop (p * PAGE_SIZE)).take PAGE_SIZE) = []
  rw [List.drop_eq_nil_of_le hlen]
  rfl

/-- Claim C4: a submission whose rating text is not an integer in [1,5], or
whose traded-item text is empty, is rejected before touching the store: the
store is unchanged and the caller gets a recoverable validation error. -/
theorem validation_rejected_before_store (ctx : SubmitContext)
    (ratingText itemText : String) (store : Store)
    (h : parse_rating ratingText = none
        ∨ (∃ n : Int, parse_rating ratingText = some n ∧ (n < 1 ∨ 5 < n))
        ∨ itemText = "") :
    (VouchModal.on_submit ctx ratingText itemText store).1 = store
    ∧ ((VouchModal.on_submit ctx ratingText itemText store).2
          = Except.error SubmitError.invalidRating
        ∨ (VouchModal.on_submit ctx ratingText itemText store).2
          = Except.error SubmitError.missingRequiredField) := by
  unfold VouchModal.on_submit
  by_cases hreq : ratingText = "" ∨ itemText = ""
  · rw [if_pos hreq]
    exact ⟨rfl, Or.inr rfl⟩
  · rw [if_neg hreq]
    push_neg at hreq
    rcases h with hn | ⟨n, hsome, hrange⟩ | hempty
    · rw [hn]
      exact ⟨rfl, Or.inl rfl⟩
    · rw [hsome]
      simp [hrange]
    · exact absurd hempty hreq.2

/-- Witness for C4: rating text 0 with a nonempty item is rejected over the
empty store, which stays empty. -/
theorem validation_rejected_before_store_witness :
    (VouchModal.on_submit demoCtx "0" "x" []).1 = ([] : Store)
    ∧ ((VouchModal.on_submit demoCtx "0" "x" []).2
          = Except.error SubmitError.invalidRating
        ∨ (VouchModal.on_submit demoCtx "0" "x" []).2
          = Except.error SubmitError.missingRequiredField) :=
  validation_rejected_before_store demoCtx "0" "x" []
    (Or.inr (Or.inl ⟨0, by decide, by decide⟩))

/-- Claim C8: a submission that passes validation is recorded no matter what
the suspicious verdict is: the record, carrying the flag computed against
the pre-insert store, is appended to the ledger and returned, and a rendered
vouch carries the warning marker exactly when its flag is set. -/
theorem flagged_vouch_still_recorded (ctx : SubmitContext)
    (ratingText itemText : String) (store : Store) (stars g : Int)
    (h0 : ¬ratingText = "") (h1 : ¬itemText = "")
    (h2 : parse_rating ratingText = some stars)
    (h3 : 1 ≤ stars) (h4 : stars ≤ 5)
    (h5 : ctx.guildId = some g)
    (h6 : account_too_young ctx = false)
    (h7 : joined_too_recently ctx = false) :
    VouchModal.on_submit ctx ratingText itemText store
      = (store ++ [new_vouch_record ctx g stars itemText
            (detect_suspicious_vouch store ctx.now g ctx.vouchedUserId ctx.userId)],
         Except.ok (new_vouch_record ctx g stars itemText
            (detect_suspicious_vouch store ctx.now g ctx.vouchedUserId ctx.userId)))
    ∧ (∀ b : Bool, rating_field_flag b = "" ↔ b = false) := by
  constructor
  · unfold VouchModal.on_submit
    rw [if_neg (by push_neg; exact ⟨h0, h1⟩)]
    simp only [h2, h5, h6, h7, Bool.false_eq_true, if_false]
    rw [if_neg (by omega : ¬(stars < 1 ∨ 5 < stars))]
  · intro b
    cases b <;> decide

/-- Witness for C8: a five-star vouch over the empty store is appended with
its computed flag. -/
theorem flagged_vouch_still_recorded_witness :
    VouchModal.on_submit demoCtx "5" "x" []
      = (([] : Store) ++ [new_vouch_record demoCtx 1 5 "x"
            (detect_suspicious_vouch [] demoCtx.now 1 demoCtx.vouchedUserId demoCtx.userId)],
         Except.ok (new_vouch_record demoCtx 1 5 "x"
            (detect_suspicious_vouch [] demoCtx.now 1 demoCtx.vouchedUserId demoCtx.userId)))
    ∧ (∀ b : Bool, rating_field_flag b = "" ↔ b = false) :=
  flagged_vouch_still_recorded demoCtx "5" "x" [] 5 1
    (by decide) (by decide) (by decide) (by decide) (by decide) rfl rfl rfl

end Voucher
